import Mathlib

/-!
Verification development for the probly orchestration pipeline.

Shallow embedding of the TypeScript sources:
  - src/utils/contextWindowUtils.ts (context compactor)
  - src/utils/analysisUtils.ts (formatSpreadsheetData, generateCellUpdates)
  - src/utils/preprocess.ts (parseCellReference)
  - src/utils/pyodideSandbox.ts (PyodideSandbox.runDataAnalysis)
  - src/pages/api/llm.ts (handleLLMRequest tool branches, sandbox lifecycle)
  - the client page component (handleSend: selection-phase timeout and
    fallback resolution of the two-phase controller)

Spreadsheet cells are JS values; the code only distinguishes null/undefined,
strings and numbers, so cells are embedded as an inductive with those three
shapes (numbers as integers; the claims under study involve no fractional
values). JS null/undefined are conflated into one `empty` constructor; both
satisfy the code's emptiness test `cell === null || cell === undefined`.
-/

namespace Probly

inductive Cell
  | empty
  | str (s : String)
  | num (n : Int)
deriving DecidableEq, Repr

/-- The emptiness test used throughout the sources:
`cell === null || cell === undefined || cell === ""`. -/
def isEmptyCell : Cell → Bool
  | Cell.empty => true
  | Cell.str s => s == ""
  | Cell.num _ => false

/-- JS `typeof`: `empty` stands for undefined (missing array slots read as
undefined in the loops being embedded). -/
def typeOf : Cell → String
  | Cell.empty => "undefined"
  | Cell.str _ => "string"
  | Cell.num _ => "number"

/-- Decimal digits of a natural number, most significant first, as JS
`String(n)` renders a nonnegative integer. The first argument is structural
fuel: the value strictly decreases each round (`n / 10 < n` once `n ≥ 10`),
so fuel `n + 1` always reaches the base case. -/
def natDecCharsAux : Nat → Nat → List Char → List Char
  | 0, _, acc => acc
  | fuel + 1, n, acc =>
    let acc1 := Char.ofNat (n % 10 + 48) :: acc
    if n < 10 then acc1 else natDecCharsAux fuel (n / 10) acc1

def natDecStr (n : Nat) : String :=
  String.mk (natDecCharsAux (n + 1) n [])

/-- JS `String(n)` for an integer. -/
def intDecStr (n : Int) : String :=
  if n < 0 then "-" ++ natDecStr n.natAbs else natDecStr n.natAbs

/-- JS template-literal interpolation of a cell value. Empty cells are only
interpolated where the code has already excluded them. -/
def cellToString : Cell → String
  | Cell.empty => "undefined"
  | Cell.str s => s
  | Cell.num n => intDecStr n

/-! ## src/utils/contextWindowUtils.ts -/

def MAX_CELLS_FULL_CONTEXT : Nat := 500
def MAX_SAMPLE_ROWS : Nat := 10
def MAX_SAMPLE_COLS : Nat := 10

/-- The non-empty-cell count accumulated by the loops of
`isSpreadsheetTooLarge` (contextWindowUtils.ts lines 27-39). -/
def countNonEmpty (data : List (List Cell)) : Nat :=
  (data.map (fun row => (row.filter (fun c => !isEmptyCell c)).length)).sum

/-- contextWindowUtils.ts `isSpreadsheetTooLarge`: true when the non-empty
cell count exceeds MAX_CELLS_FULL_CONTEXT. (The `maxColCount` computed by the
source loop does not influence the result.) -/
def isSpreadsheetTooLarge (data : List (List Cell)) : Bool :=
  countNonEmpty data > MAX_CELLS_FULL_CONTEXT

/-- contextWindowUtils.ts `inferHeaders`. The source compares
`stringCount > firstRow.length * 0.7` and `differentTypes > firstRow.length * 0.5`
with JS doubles; the embedding uses the exact rational comparisons
`10 * stringCount > 7 * len` and `2 * differentTypes > len`, which agree with
the double computation at every row length arising here. The loop runs over
`i < min(firstRow.length, secondRow.length)`, i.e. over `firstRow.zip secondRow`. -/
def inferHeaders (data : List (List Cell)) : Bool :=
  match data with
  | firstRow :: secondRow :: _ =>
    let pairs := firstRow.zip secondRow
    let stringCount := (pairs.filter (fun p =>
      match p.1 with
      | Cell.str s => s != ""
      | _ => false)).length
    let differentTypes := (pairs.filter (fun p => typeOf p.1 != typeOf p.2)).length
    10 * stringCount > 7 * firstRow.length || 2 * differentTypes > firstRow.length
  | _ => false

/-- contextWindowUtils.ts `sampleSpreadsheet`. Loops become `List.range'`
segments; `data[i].slice(0, colCount)` becomes `(data.getD i []).take colCount`.
The middle-rows loop checks `rowIndex < rowCount` before pushing, hence the
`filterMap`. -/
def sampleSpreadsheet (data : List (List Cell)) : List (List Cell) :=
  if data.isEmpty then [[]]
  else
    let hasHeaders := inferHeaders data
    let rowCount := data.length
    let maxColCount := (data.map List.length).foldl Nat.max 0
    let colCount := min maxColCount MAX_SAMPLE_COLS
    let headerRows := if hasHeaders then [(data.headD []).take colCount] else []
    let dataRowCount := if hasHeaders then rowCount - 1 else rowCount
    let sampleRowCount := min dataRowCount MAX_SAMPLE_ROWS
    let start := if hasHeaders then 1 else 0
    if sampleRowCount ≤ 3 then
      headerRows ++ (List.range' start (rowCount - start)).map
        (fun i => (data.getD i []).take colCount)
    else
      let first2 := (List.range' start (min (start + 2) rowCount - start)).map
        (fun i => (data.getD i []).take colCount)
      let middle :=
        if dataRowCount > 5 then
          let step := dataRowCount / (sampleRowCount - 4)
          (List.range (min (sampleRowCount - 4) (dataRowCount - 4))).filterMap (fun i =>
            let rowIndex := start + 2 + i * step
            if rowIndex < rowCount then some ((data.getD rowIndex []).take colCount)
            else none)
        else []
      let last2 := (List.range' (max start (rowCount - 2))
          (rowCount - max start (rowCount - 2))).map
        (fun i => (data.getD i []).take colCount)
      headerRows ++ first2 ++ middle ++ last2

/-- contextWindowUtils.ts helper `isRowEmpty` (a missing row is also empty). -/
def isRowEmpty (row : List Cell) : Bool := row.all isEmptyCell

/-- contextWindowUtils.ts helper `isColumnEmpty`: no row has a non-empty cell
at `colIndex` (rows too short count as empty there). -/
def isColumnEmpty (data : List (List Cell)) (colIndex : Nat) : Bool :=
  data.all (fun row =>
    match row.get? colIndex with
    | some c => isEmptyCell c
    | none => true)

/-- contextWindowUtils.ts `cleanSpreadsheetData`: drop empty rows, then keep
only non-empty columns; a kept column index past a row's length reads as `""`. -/
def cleanSpreadsheetData (data : List (List Cell)) : List (List Cell) :=
  if data.isEmpty then [[]]
  else
    let rowsFiltered := data.filter (fun row => !isRowEmpty row)
    if rowsFiltered.isEmpty then [[]]
    else
      let maxCols := (rowsFiltered.map List.length).foldl Nat.max 0
      let nonEmptyColumns := (List.range maxCols).filter
        (fun col => !isColumnEmpty rowsFiltered col)
      rowsFiltered.map (fun row => nonEmptyColumns.map
        (fun col => row.getD col (Cell.str "")))

/-- One CSV cell as createSpreadsheetContext renders it: null/undefined to
the empty string, a string containing a comma gets double quotes, everything
else through `String(cell)`. -/
def csvCell : Cell → String
  | Cell.empty => ""
  | Cell.str s => if s.contains ',' then "\"" ++ s ++ "\"" else s
  | Cell.num n => intDecStr n

/-- JS `Array.prototype.join(sep)`. -/
def joinSep (sep : String) : List String → String
  | [] => ""
  | h :: t => t.foldl (fun a x => a ++ sep ++ x) h

def csvRow (row : List Cell) : String := joinSep "," (row.map csvCell)

def csvGrid (rows : List (List Cell)) : String := joinSep "\n" (rows.map csvRow)

/-- contextWindowUtils.ts `createSpreadsheetContext`. In the oversized branch
the source computes `analyzeSpreadsheet(cleanedData)` and uses only its
`hasHeaders` field, which analyzeSpreadsheet (line 91) sets to
`inferHeaders(data)`; the embedding inlines that projection. -/
def createSpreadsheetContext (data : List (List Cell)) : String :=
  if data.isEmpty then "[]"
  else
    let cleanedData := cleanSpreadsheetData data
    if isSpreadsheetTooLarge cleanedData then
      let tag := if inferHeaders cleanedData then "sample:" else "sample(no-headers):"
      tag ++ csvGrid (sampleSpreadsheet cleanedData)
    else
      csvGrid cleanedData

/-! ## src/utils/analysisUtils.ts -/

/-- analysisUtils.ts `getColumnRef` (inner function of formatSpreadsheetData):
bijective base-26 column letters, 0 = A, 25 = Z, 26 = AA. The JS loop runs
while `index >= 0` with `index = Math.floor(index / 26) - 1` each round; over
naturals that is: stop as soon as `index < 26` (the next value would be -1).
The first argument is structural fuel; the index strictly decreases each
round, so fuel `index + 1` always reaches the base case. -/
def getColumnRefAux : Nat → Nat → List Char → List Char
  | 0, _, acc => acc
  | fuel + 1, i, acc =>
    let acc1 := Char.ofNat (i % 26 + 65) :: acc
    if i < 26 then acc1 else getColumnRefAux fuel (i / 26 - 1) acc1

def getColumnRef (index : Nat) : String :=
  String.mk (getColumnRefAux (index + 1) index [])

/-- Index of the last non-empty cell of a row (the source's
`lastNonEmptyIndex` scan); `none` when the row is entirely empty, which is
also the case the source skips via `row.every(isEmpty)`. -/
def lastNonEmptyIdx : List Cell → Option Nat
  | [] => none
  | c :: rest =>
    match lastNonEmptyIdx rest with
    | some k => some (k + 1)
    | none => if isEmptyCell c then none else some 0

/-- The inner reduce of formatSpreadsheetData: walk the (truncated) row,
skipping empty cells, emitting `<ref>value</ref>` with
`ref = columnRefs[colIndex] + (rowIndex + 1)`. A JS read past the end of
`columnRefs` interpolates as the string "undefined". -/
def cellTags (columnRefs : List String) (rowIndex : Nat) : Nat → List Cell → String
  | _, [] => ""
  | colIndex, cell :: rest =>
    (if isEmptyCell cell then ""
     else
       let cellRef := columnRefs.getD colIndex "undefined" ++ natDecStr (rowIndex + 1)
       "<" ++ cellRef ++ ">" ++ cellToString cell ++ "</" ++ cellRef ++ ">")
    ++ cellTags columnRefs rowIndex (colIndex + 1) rest

/-- One row's contribution to the outer reduce: nothing for an all-empty row,
otherwise the tags of the row truncated after its last non-empty cell,
followed by a newline. -/
def rowPiece (columnRefs : List String) (rowIndex : Nat) (row : List Cell) : String :=
  match lastNonEmptyIdx row with
  | none => ""
  | some k => cellTags columnRefs rowIndex 0 (row.take (k + 1)) ++ "\n"

/-- The outer reduce of formatSpreadsheetData, with the running row index. -/
def formatRowsFrom (columnRefs : List String) : Nat → List (List Cell) → String
  | _, [] => ""
  | i, row :: rest => rowPiece columnRefs i row ++ formatRowsFrom columnRefs (i + 1) rest

/-- analysisUtils.ts `formatSpreadsheetData`. The original-column branch
requires `originalColumn` truthy (a non-empty string) and
`data[0]?.length === 1`. -/
def formatSpreadsheetData (data : List (List Cell)) (sampleMode : Bool := false)
    (maxSampleRows : Nat := 5) (originalColumn : Option String := none) : String :=
  let dataToProcess := if sampleMode then data.take maxSampleRows else data
  let maxColumns := (dataToProcess.map List.length).foldl Nat.max 0
  let columnRefs : List String :=
    match originalColumn with
    | some c =>
      if c != "" && (data.headD []).length == 1 then [c]
      else (List.range maxColumns).map getColumnRef
    | none => (List.range maxColumns).map getColumnRef
  let formattedData := formatRowsFrom columnRefs 0 dataToProcess
  if sampleMode && data.length > maxSampleRows then
    formattedData ++ "\n[" ++ natDecStr (data.length - maxSampleRows)
      ++ " more rows not shown in sample mode]\n"
  else formattedData

/-- JS whitespace test for `String.prototype.trim` (the characters that occur
in the data under study). -/
def jsWhitespace (c : Char) : Bool := c == ' ' || c == '\t' || c == '\n' || c == '\r'

def trimChars (l : List Char) : List Char :=
  ((l.dropWhile jsWhitespace).reverse.dropWhile jsWhitespace).reverse

/-- JS `String.prototype.split` with a one-character separator: always returns
at least one (possibly empty) field. -/
def splitOnChar (sep : Char) : List Char → List (List Char)
  | [] => [[]]
  | c :: rest =>
    let r := splitOnChar sep rest
    if c == sep then [] :: r
    else
      match r with
      | [] => [[c]]
      | h :: t => (c :: h) :: t

/-- First maximal run of characters satisfying `p`, as JS `match` with the
pattern one-or-more-of a character class finds it. -/
def firstRunOf (p : Char → Bool) : List Char → Option (List Char)
  | [] => none
  | c :: rest => if p c then some (c :: rest.takeWhile p) else firstRunOf p rest

/-- The regex character class `[A-Z]`: code points 65 to 90. -/
def isUpperAZ (c : Char) : Bool := decide (65 ≤ c.toNat) && decide (c.toNat ≤ 90)

/-- The regex character class `[0-9]`: code points 48 to 57. -/
def isDigit09 (c : Char) : Bool := decide (48 ≤ c.toNat) && decide (c.toNat ≤ 57)

/-- JS `parseInt` on a run of decimal digits. -/
def digitsVal (l : List Char) : Nat :=
  l.foldl (fun a ch => a * 10 + (ch.toNat - 48)) 0

structure CellUpdate where
  target : String
  formula : String
deriving DecidableEq, Repr

/-- analysisUtils.ts `generateCellUpdates`: split the structured output into
trimmed comma-separated rows, and address each value from `startCell`, whose
column letter is the first uppercase run (default "A") and whose row number
is the first digit run (default 1). The target column takes only the FIRST
character code of the letter run, shifted by the column index. -/
def generateCellUpdates (structuredOutput : String) (startCell : String) :
    List (List CellUpdate) :=
  let outputRows := (splitOnChar '\n' (trimChars structuredOutput.data)).map
    (fun row => (splitOnChar ',' row).map trimChars)
  let colLetter : List Char := (firstRunOf isUpperAZ startCell.data).getD ['A']
  let rowNumber : Nat :=
    match firstRunOf isDigit09 startCell.data with
    | some ds => digitsVal ds
    | none => 1
  outputRows.enum.map (fun rid =>
    rid.2.enum.map (fun cid =>
      { target := String.mk [Char.ofNat ((colLetter.headD 'A').toNat + cid.1)]
          ++ natDecStr (rowNumber + rid.1),
        formula := String.mk cid.2 }))

/-! ## src/utils/preprocess.ts -/

/-- Parsed cell position, 0-based, as preprocess.ts returns it. Row and
column are integers because the source subtracts 1 from the parsed values. -/
structure CellPos where
  row : Int
  col : Int
deriving DecidableEq, Repr

/-- The regex match of preprocess.ts `parseCellReference`
(one-or-more uppercase letters, then one-or-more digits, unanchored), as the
engine finds it: at each start position, greedily take the uppercase run and
require a digit right after it, else retry from the next position.
Backtracking inside the letter group cannot help, since shortening the group
leaves a letter, not a digit, after it. -/
def findRefMatch : List Char → Option (List Char × List Char)
  | [] => none
  | c :: rest =>
    if isUpperAZ c then
      let letters := rest.takeWhile isUpperAZ
      let after := rest.dropWhile isUpperAZ
      let digits := after.takeWhile isDigit09
      if digits.isEmpty then findRefMatch rest else some (c :: letters, digits)
    else findRefMatch rest

/-- The column-number fold of parseCellReference:
`colNum = colNum * 26 + (charCode - 64)`. -/
def colVal (l : List Char) : Nat :=
  l.foldl (fun a ch => a * 26 + (ch.toNat - 64)) 0

/-- preprocess.ts `parseCellReference`; a thrown "Invalid cell reference"
becomes `none`. -/
def parseCellReference (cellRef : String) : Option CellPos :=
  match findRefMatch cellRef.data with
  | none => none
  | some m =>
    some { row := (digitsVal m.2 : Int) - 1, col := (colVal m.1 : Int) - 1 }

/-! ## src/utils/pyodideSandbox.ts -/

/-- The result record of `PyodideSandbox.runDataAnalysis`; `result` is the
value of the last Python expression, `none` embedding JS null. -/
structure SandboxResult where
  stdout : String
  stderr : String
  result : Option String
deriving DecidableEq, Repr

/-- Outcome of the raced Python execution inside runDataAnalysis, with the
stdout/stderr chunks captured (batched) up to that point:
`completed` means `runPythonAsync` finished before the timer,
`raised` means the setup or the Python code threw with the given message,
`timedOut` means the 5000 ms timer rejected first with "Analysis timeout". -/
inductive PyRun
  | completed (out err : List String) (value : Option String)
  | raised (out err : List String) (msg : String)
  | timedOut (out err : List String)
deriving DecidableEq, Repr

/-- pyodideSandbox.ts `runDataAnalysis` lines 68-99: on success the joined
captured streams and the value; on any caught error (a Python exception or
the timeout rejection) the joined stdout captured so far, a stderr replaced
by "Error in data analysis: " plus the error message, and a null result.
The function returns in every case; it does not rethrow. -/
def runDataAnalysis : PyRun → SandboxResult
  | PyRun.completed out err v =>
    { stdout := String.join out, stderr := String.join err, result := v }
  | PyRun.raised out _ msg =>
    { stdout := String.join out,
      stderr := "Error in data analysis: " ++ msg, result := none }
  | PyRun.timedOut out _ =>
    { stdout := String.join out,
      stderr := "Error in data analysis: Analysis timeout", result := none }

/-! ## src/pages/api/llm.ts: tool dispatch -/

/-- The fields of the `toolData` object a handler branch leaves for the
terminal `res.write` frame (the frame adds `streaming: false`). A field the
branch never sets is `none`: the JSON serializer omits it from the frame. -/
structure DataSelection where
  selectionType : Option String
  range : Option String
deriving DecidableEq, Repr

structure DataSelectionResult where
  analysisType : Option String
  dataSelection : Option DataSelection
  explanation : Option String
deriving DecidableEq, Repr

structure ToolData where
  response : Option String
  updates : Option (List CellUpdate)
  dataSelectionResult : Option DataSelectionResult
  error : Option String
deriving DecidableEq, Repr

/-- JS truthiness of an optional string field: absent, undefined and ""
are falsy. -/
def strTruthy : Option String → Bool
  | none => false
  | some s => s != ""

/-- Arguments of the select_data_for_analysis tool as JSON.parse delivers
them (any field may be missing). -/
structure SelectArgs where
  analysisType : Option String
  dataSelection : Option DataSelection
  explanation : Option String
deriving DecidableEq, Repr

/-- Interpolation of a possibly-undefined JS value into a template literal. -/
def optInterp : Option String → String
  | none => "undefined"
  | some s => s

/-- llm.ts lines 206-252, the select_data_for_analysis branch.
`parsed = none` embeds a `JSON.parse` throw on the raw arguments: the catch
substitutes the hard-coded fallback args (analysisType "custom", a range
selection "A1:Z10", explanation "Fallback after parsing error") and
processing continues. Then the branch validates
`!dataSelection || !dataSelection.selectionType` and builds the frame. -/
def selectDataBranch (parsed : Option SelectArgs) : ToolData :=
  let args : SelectArgs :=
    match parsed with
    | some a => a
    | none =>
      { analysisType := some "custom",
        dataSelection := some { selectionType := some "range", range := some "A1:Z10" },
        explanation := some "Fallback after parsing error" }
  match args.dataSelection with
  | none =>
    { response := some "I couldn't determine what data to analyze. Please try rephrasing your request.",
      updates := none, dataSelectionResult := none,
      error := some "Invalid data selection parameters" }
  | some ds =>
    if strTruthy ds.selectionType then
      { response := some ("I'll analyze your data using " ++ optInterp args.analysisType
          ++ " analysis. " ++ optInterp args.explanation),
        updates := none,
        dataSelectionResult := some
          { analysisType := args.analysisType, dataSelection := some ds,
            explanation := args.explanation },
        error := none }
    else
      { response := some "I couldn't determine what data to analyze. Please try rephrasing your request.",
        updates := none, dataSelectionResult := none,
        error := some "Invalid data selection parameters" }

/-- llm.ts lines 291-300 and the surrounding catch (lines 466-475), the
set_spreadsheet_cells branch. `parsed` is `some updates` when
`JSON.parse(rawArguments).cellUpdates` yields a list; `none` embeds a parse
throw (invalid JSON), which falls to `catch (toolError)`: the whole toolData
is replaced by an error object with no `updates` field. `initialResponse` is
the text of the first completion, already stored in `toolData.response`. -/
def setCellsBranch (initialResponse : String) (parsed : Option (List CellUpdate)) :
    ToolData :=
  match parsed with
  | some updates =>
    { response := some (initialResponse ++ "\n\nSpreadsheet Updates:\n"
        ++ joinSep "\n" (updates.map (fun u => u.target ++ ": " ++ u.formula))),
      updates := some updates, dataSelectionResult := none, error := none }
  | none =>
    { response := some "I encountered an error while trying to analyze your data. Please try again with a simpler request.",
      updates := none, dataSelectionResult := none,
      error := some "Error processing set_spreadsheet_cells" }

/-- llm.ts lines 336-354: after a (non-throwing) `runDataAnalysis`, the
execute_python_code branch structures `result.stdout` through the external
LLM call `structureAnalysisOutput` (its reply is the `structuredOutput`
parameter here) and emits the flattened `generateCellUpdates`. Nothing in
this path consults `runResult.stderr` or `runResult.result`, so a timed-out
run flows through it identically. -/
def executePythonToolData (runResult : SandboxResult) (structuredOutput : String)
    (analysisGoal startCell : String) : ToolData :=
  let _stdoutSent := runResult.stdout
  { response := some ("I've analyzed your data: " ++ analysisGoal),
    updates := some (generateCellUpdates structuredOutput startCell).flatten,
    dataSelectionResult := none, error := none }

/-! ## src/pages/api/llm.ts: sandbox lifecycle of the execute_python_code branch

The branch (lines 310-364) sits inside the handler's outer try, whose
`finally` (lines 507-512) runs `if (sandbox) await sandbox.destroy()`.
The branch has its own try/catch/finally; its finally also destroys the
sandbox but never clears the `sandbox` variable, so the outer finally
destroys again. The embedding is a state machine over the counters a trace
would record: creates, destroy calls, whether the handler's `sandbox`
variable is non-null, and whether a created runtime is still alive
(PyodideSandbox.destroy nulls the internal runtime, making later destroy
calls no-ops on it, but each call still counts as an invocation). -/

inductive Flow
  | normal
  | returned
  | thrown
deriving DecidableEq, Repr

structure SBState where
  creates : Nat
  destroys : Nat
  sandboxVar : Bool
  runtimeAlive : Bool
deriving DecidableEq, Repr

def SBState.init : SBState :=
  { creates := 0, destroys := 0, sandboxVar := false, runtimeAlive := false }

/-- `sandbox = new PyodideSandbox()`. -/
def newSandbox (s : SBState) : SBState :=
  { s with creates := s.creates + 1, sandboxVar := true, runtimeAlive := true }

/-- `await sandbox.destroy()`: one more destroy invocation; the runtime dies;
the handler's `sandbox` variable stays non-null. -/
def destroyCall (s : SBState) : SBState :=
  { s with destroys := s.destroys + 1, runtimeAlive := false }

/-- `if (sandbox) { await sandbox.destroy(); }` — both finally blocks. -/
def destroyIfSandbox (s : SBState) : SBState :=
  if s.sandboxVar then destroyCall s else s

/-- The observable nondeterminism of one pass through the branch: the value
of the `aborted` flag at each of its three guards (the client may disconnect
at any await), and whether each throwing step succeeds.
`runDataAnalysis` itself returns rather than throws (see above), so it has
no flag here. -/
structure ExecOutcome where
  abortedAtEntry : Bool
  abortedAfterParse : Bool
  abortedAfterRun : Bool
  initOk : Bool
  argsParseOk : Bool
  structureOk : Bool
deriving DecidableEq, Repr

/-- The body of the branch's inner try, llm.ts lines 311-354. -/
def execPythonInner (o : ExecOutcome) (s0 : SBState) : Flow × SBState :=
  if o.abortedAtEntry then (Flow.returned, s0)
  else
    let s1 := newSandbox s0
    if !o.initOk then (Flow.thrown, s1)
    else if !o.argsParseOk then (Flow.thrown, s1)
    else if o.abortedAfterParse then (Flow.returned, destroyCall s1)
    else if o.abortedAfterRun then (Flow.returned, destroyCall s1)
    else if !o.structureOk then (Flow.thrown, s1)
    else (Flow.normal, s1)

/-- `catch (error) { toolData = {...} }`: a thrown flow becomes normal. -/
def catchStep (r : Flow × SBState) : Flow × SBState :=
  match r with
  | (Flow.thrown, s) => (Flow.normal, s)
  | other => other

/-- A `finally` block runs its action on every flow and preserves the flow. -/
def finallyStep (r : Flow × SBState) (fin : SBState → SBState) : Flow × SBState :=
  (r.1, fin r.2)

/-- The whole branch as the handler executes it: inner try/catch, inner
finally (destroy if sandbox), then — after the frame is written on the
normal flow — the handler's outer finally (destroy if sandbox) runs on
every flow, including the early returns. -/
def execPythonBranch (o : ExecOutcome) : Flow × SBState :=
  finallyStep (finallyStep (catchStep (execPythonInner o SBState.init))
    destroyIfSandbox) destroyIfSandbox

/-! ## src/unnamed/part_009: client Session Dialogue Controller (handleSend),
selection-phase resolution -/

/-- The selection result as the client controller resolves it: the three
client-side fallback objects of part_009 carry a literal `fallback: true`
field; a descriptor taken from a server frame has no such key (`none`). -/
structure ClientSelectionResult where
  fallback : Option Bool
  analysisType : Option String
  dataSelection : Option DataSelection
  explanation : Option String
deriving DecidableEq, Repr

/-- The hard-coded client fallback descriptor of part_009, built identically
at the timeout, stream-end and error sites (they differ only in the
explanation text): a range selection over A1:Z20, analysisType "summary",
fallback: true. -/
def selectionFallback (reason : String) : ClientSelectionResult :=
  { fallback := some true,
    analysisType := some "summary",
    dataSelection := some { selectionType := some "range", range := some "A1:Z20" },
    explanation := some reason }

/-- How one pass of the client's selection promise can end: a frame carrying
a dataSelectionResult arrives before the 15000 ms timer fires (the timer is
then cleared and the promise resolves with that descriptor), the timer fires
first, the stream completes without any dataSelectionResult, or reading or
processing the stream throws. -/
inductive SelectionPhaseOutcome
  | resultFrame (r : DataSelectionResult)
  | timedOut
  | streamEnded
  | errored (msg : String)
deriving DecidableEq, Repr

/-- part_009 handleSend, selection promise (the `selectionPromise` block):
every path RESOLVES — the promise never rejects — and the resolved value is
fed into phase 2 as `dataSelectionResult`. A server frame's descriptor is
passed through as-is, so it has no fallback key; the 15-second timeout, the
stream ending without a result, and a processing error each resolve with the
client fallback descriptor. -/
def resolveSelectionPhase : SelectionPhaseOutcome → ClientSelectionResult
  | SelectionPhaseOutcome.resultFrame r =>
    { fallback := none, analysisType := r.analysisType,
      dataSelection := r.dataSelection, explanation := r.explanation }
  | SelectionPhaseOutcome.timedOut =>
    selectionFallback "Using fallback selection due to timeout"
  | SelectionPhaseOutcome.streamEnded =>
    selectionFallback "Using fallback selection due to no selection result"
  | SelectionPhaseOutcome.errored _ =>
    selectionFallback "Using fallback selection due to error"

/-! ## Auxiliary definitions for stating the claims -/

/-- `pat` stands at the front of `l`. -/
def leadsWith : List Char → List Char → Bool
  | [], _ => true
  | _ :: _, [] => false
  | p :: ps, c :: cs => (p == c) && leadsWith ps cs

/-- `pat` occurs somewhere inside `l` as a contiguous run. -/
def hasSubList (pat : List Char) : List Char → Bool
  | [] => leadsWith pat []
  | c :: cs => leadsWith pat (c :: cs) || hasSubList pat cs

/-- Substring occurrence test, used to state that a rendered context does or
does not carry a given annotation. -/
def strContainsSub (s pat : String) : Bool := hasSubList pat.data s.data

/-- The rendering the column-selection claim describes: one tag per non-empty
single-cell row, addressed with the ORIGINAL column letter `c` and the
1-based row number. Stated from the spec sentence, to be compared with
`formatSpreadsheetData`. -/
def singleColumnRender (c : String) (i : Nat) : List (List Cell) → String
  | [] => ""
  | row :: rest =>
    (match row with
     | [v] =>
       if isEmptyCell v then ""
       else
         "<" ++ c ++ natDecStr (i + 1) ++ ">" ++ cellToString v
           ++ "</" ++ c ++ natDecStr (i + 1) ++ ">" ++ "\n"
     | _ => "") ++ singleColumnRender c (i + 1) rest

/-- A 51-by-10 grid of the number 7: 510 non-empty cells, over the 500-cell
threshold, with no header row (all cells share one type and none is a
string). -/
def bigGrid : List (List Cell) := List.replicate 51 (List.replicate 10 (Cell.num 7))

/-! ## Theorems: sandbox lifecycle (C1, C3) -/

/-- C1 (counterexample): on a fully successful execute_python_code call (no
abort, no throw, no timeout) the branch performs exactly one sandbox create
but invokes destroy twice: once in its inner finally and once more in the
handler's outer finally, which still sees the non-null `sandbox` variable.
The claim that destroy is invoked neither more nor fewer times than create is
therefore false on the code. -/
theorem C1_counterexample :
    (execPythonBranch
      { abortedAtEntry := false, abortedAfterParse := false, abortedAfterRun := false,
        initOk := true, argsParseOk := true, structureOk := true }).2.creates = 1 ∧
    (execPythonBranch
      { abortedAtEntry := false, abortedAfterParse := false, abortedAfterRun := false,
        initOk := true, argsParseOk := true, structureOk := true }).2.destroys = 2 ∧
    (execPythonBranch
      { abortedAtEntry := false, abortedAfterParse := false, abortedAfterRun := false,
        initOk := true, argsParseOk := true, structureOk := true }).2.destroys ≠
    (execPythonBranch
      { abortedAtEntry := false, abortedAfterParse := false, abortedAfterRun := false,
        initOk := true, argsParseOk := true, structureOk := true }).2.creates := by
  decide

/-- C1 (amended): for every code-execution tool call that actually begins
(the aborted flag is not yet set at the branch's entry guard), whether it
succeeds, throws during initialization, argument parsing or output
structuring, or is aborted at a later guard, exactly one sandbox create
occurs and the runtime is never left alive — but destroy is invoked two or
three times, not exactly once, because the inner finally does not clear the
`sandbox` variable before the outer finally runs. -/
theorem C1_sandbox_teardown (a1 a2 i p st : Bool) :
    (execPythonBranch ⟨false, a1, a2, i, p, st⟩).2.creates = 1 ∧
    2 ≤ (execPythonBranch ⟨false, a1, a2, i, p, st⟩).2.destroys ∧
    (execPythonBranch ⟨false, a1, a2, i, p, st⟩).2.destroys ≤ 3 ∧
    (execPythonBranch ⟨false, a1, a2, i, p, st⟩).2.runtimeAlive = false := by
  revert a1 a2 i p st
  decide

/-- C3: when the cancellation flag is already observed true at the
execute_python_code entry guard — before phase 2's tool handling begins —
the branch returns without constructing a PyodideSandbox: no create occurs,
the `sandbox` variable stays null and no runtime ever exists for the turn,
whatever happens at the later guards. -/
theorem C3_abort_blocks_sandbox_creation (a1 a2 i p st : Bool) :
    (execPythonBranch ⟨true, a1, a2, i, p, st⟩).2.creates = 0 ∧
    (execPythonBranch ⟨true, a1, a2, i, p, st⟩).2.sandboxVar = false ∧
    (execPythonBranch ⟨true, a1, a2, i, p, st⟩).2.runtimeAlive = false := by
  revert a1 a2 i p st
  decide

/-! ## Theorems: selection-phase fallback (C2) -/

/-- C2 (counterexample): when the select_data_for_analysis arguments fail to
parse, the terminal frame's dataSelectionResult is the hard-coded fallback
descriptor with analysisType "custom" — not "summary" — and the frame's
fields are exactly the ones below: no `fallback: true` marker exists
anywhere in it. -/
theorem C2_counterexample :
    selectDataBranch none =
      { response := some "I'll analyze your data using custom analysis. Fallback after parsing error",
        updates := none,
        dataSelectionResult := some
          { analysisType := some "custom",
            dataSelection := some { selectionType := some "range", range := some "A1:Z10" },
            explanation := some "Fallback after parsing error" },
        error := none } ∧
    (some "custom" : Option String) ≠ some "summary" := by
  decide

/-- C2 (amended): the selection phase degrades without ever failing, but its
two trigger kinds produce different descriptors. When the phase times out —
the client controller's 15-second timer in part_009 — and likewise when the
stream ends without a selection result or errors, processing continues and
the result fed into phase 2 is a non-empty default range descriptor (range
A1:Z20) with analysisType "summary" marked fallback: true, exactly as the
claim states. When the tool-argument JSON cannot be parsed, however, the
server's terminal frame still carries a non-empty dataSelectionResult and
processing continues, but that descriptor is the server's A1:Z10 range with
analysisType "custom" and explanation "Fallback after parsing error", and it
reaches phase 2 unchanged, with no fallback marker. -/
theorem C2_selection_fallbacks :
    resolveSelectionPhase SelectionPhaseOutcome.timedOut =
      { fallback := some true,
        analysisType := some "summary",
        dataSelection := some { selectionType := some "range", range := some "A1:Z20" },
        explanation := some "Using fallback selection due to timeout" } ∧
    resolveSelectionPhase SelectionPhaseOutcome.streamEnded =
      selectionFallback "Using fallback selection due to no selection result" ∧
    (∀ msg, resolveSelectionPhase (SelectionPhaseOutcome.errored msg) =
      selectionFallback "Using fallback selection due to error") ∧
    (selectDataBranch none).dataSelectionResult = some
      { analysisType := some "custom",
        dataSelection := some { selectionType := some "range", range := some "A1:Z10" },
        explanation := some "Fallback after parsing error" } ∧
    resolveSelectionPhase (SelectionPhaseOutcome.resultFrame
      { analysisType := some "custom",
        dataSelection := some { selectionType := some "range", range := some "A1:Z10" },
        explanation := some "Fallback after parsing error" }) =
      { fallback := none, analysisType := some "custom",
        dataSelection := some { selectionType := some "range", range := some "A1:Z10" },
        explanation := some "Fallback after parsing error" } := by
  exact ⟨rfl, rfl, fun _ => rfl, by decide, rfl⟩

/-! ## Theorems: malformed set_spreadsheet_cells arguments (C5) -/

/-- C5 (counterexample): when the set_spreadsheet_cells raw arguments are not
valid JSON, the `catch (toolError)` replaces toolData wholesale: the terminal
frame has NO updates field (none, i.e. the key is absent from the JSON) —
not an updates field equal to the empty list — and its response is the
generic tool-error text, which speaks of an error during analysis, not of an
update that could not be determined. -/
theorem C5_counterexample :
    (setCellsBranch "Here is my plan." none).updates = none ∧
    (none : Option (List CellUpdate)) ≠ some [] ∧
    (setCellsBranch "Here is my plan." none).response =
      some "I encountered an error while trying to analyze your data. Please try again with a simpler request." := by
  decide

/-- C5 (amended): for every set_spreadsheet_cells invocation whose raw
arguments fail to parse, dispatch returns normally (the branch is a total
function: the thrown parse error is consumed by the tool-level catch) and
the terminal frame is exactly the tool-error object: a generic error
response, an error tag naming the tool, and no updates field at all. -/
theorem C5_malformed_set_cells (initialResponse : String) :
    setCellsBranch initialResponse none =
      { response := some "I encountered an error while trying to analyze your data. Please try again with a simpler request.",
        updates := none,
        dataSelectionResult := none,
        error := some "Error processing set_spreadsheet_cells" } := by
  rfl

/-! ## Theorems: compactor determinism (C8) -/

/-- C8: the compactor is deterministic — both rendering entry points are
pure functions of the grid and the selection and sampling parameters, so two
runs on identical inputs produce byte-identical strings (the embedding shows
no randomness or clock input exists in either computation). -/
theorem C8_compactor_deterministic (d1 d2 : List (List Cell)) (sampleMode : Bool)
    (maxSampleRows : Nat) (originalColumn : Option String) (h : d1 = d2) :
    createSpreadsheetContext d1 = createSpreadsheetContext d2 ∧
    formatSpreadsheetData d1 sampleMode maxSampleRows originalColumn =
      formatSpreadsheetData d2 sampleMode maxSampleRows originalColumn := by
  subst h
  exact ⟨rfl, rfl⟩

/-- C8 witness: the determinism theorem applied to one concrete grid and
parameter set. -/
theorem C8_witness :
    ([[Cell.num 3, Cell.str "a"]] : List (List Cell)) = [[Cell.num 3, Cell.str "a"]] ∧
    (createSpreadsheetContext [[Cell.num 3, Cell.str "a"]] =
        createSpreadsheetContext [[Cell.num 3, Cell.str "a"]] ∧
      formatSpreadsheetData [[Cell.num 3, Cell.str "a"]] true 5 (some "F") =
        formatSpreadsheetData [[Cell.num 3, Cell.str "a"]] true 5 (some "F")) :=
  ⟨rfl, C8_compactor_deterministic [[Cell.num 3, Cell.str "a"]] [[Cell.num 3, Cell.str "a"]]
    true 5 (some "F") rfl⟩

/-! ## Theorems: sandbox timeout (C6) -/

/-- JS `split` never yields an empty field list. -/
theorem splitOnChar_ne_nil (sep : Char) (l : List Char) : splitOnChar sep l ≠ [] := by
  induction l with
  | nil => simp [splitOnChar]
  | cons c rest ih =>
    simp only [splitOnChar]
    cases hc : (c == sep)
    · cases hr : splitOnChar sep rest
      · simp
      · simp
    · simp

/-- generateCellUpdates always produces at least one update: the split of the
structured output has at least one row with at least one field. -/
theorem generateCellUpdates_flatten_ne_nil (s c : String) :
    (generateCellUpdates s c).flatten ≠ [] := by
  unfold generateCellUpdates
  obtain ⟨h0, t0, e0⟩ :=
    List.exists_cons_of_ne_nil (splitOnChar_ne_nil '\n' (trimChars s.data))
  obtain ⟨h1, t1, e1⟩ := List.exists_cons_of_ne_nil (splitOnChar_ne_nil ',' h0)
  apply List.ne_nil_of_length_pos
  rw [List.length_flatten]
  simp only [e0, e1, List.map_cons, List.enum_cons, List.length_map, List.length_cons,
    List.sum_cons, List.enum_length]
  omega

/-- C6 (counterexample): a timed-out run returns (never throws) with the
partial stdout, the timeout-tagged stderr and a null result — but the claim
that no cell updates are produced from such a run is false: the branch never
inspects stderr, structures the partial stdout through the external LLM and
always emits at least one update (here, from an empty structured reply, the
single update A1 := ""). -/
theorem C6_counterexample :
    runDataAnalysis (PyRun.timedOut ["par", "tial"] []) =
      { stdout := "partial", stderr := "Error in data analysis: Analysis timeout",
        result := none } ∧
    (executePythonToolData (runDataAnalysis (PyRun.timedOut ["par", "tial"] []))
        "" "summary statistics" "A1").updates =
      some [{ target := "A1", formula := "" }] ∧
    some [({ target := "A1", formula := "" } : CellUpdate)] ≠ some ([] : List CellUpdate) ∧
    (executePythonToolData (runDataAnalysis (PyRun.timedOut ["par", "tial"] []))
        "" "summary statistics" "A1").updates ≠ none := by
  decide

/-- C6 (amended): for every sandbox execution that does not complete before
the timeout, runDataAnalysis returns (rather than throws) a result whose
stdout is exactly the output captured up to that point, whose stderr tags
the failure as "Error in data analysis: Analysis timeout", and whose result
is null; however, cell updates ARE still produced from such a run — the
branch passes the partial stdout to the structuring step and emits the
flattened generateCellUpdates, which is never empty. -/
theorem C6_timeout_returns_partial_output (out err : List String)
    (structuredOutput analysisGoal startCell : String) :
    runDataAnalysis (PyRun.timedOut out err) =
      { stdout := String.join out,
        stderr := "Error in data analysis: Analysis timeout", result := none } ∧
    (executePythonToolData (runDataAnalysis (PyRun.timedOut out err))
        structuredOutput analysisGoal startCell).updates =
      some (generateCellUpdates structuredOutput startCell).flatten ∧
    (generateCellUpdates structuredOutput startCell).flatten ≠ [] :=
  ⟨rfl, rfl, generateCellUpdates_flatten_ne_nil structuredOutput startCell⟩

/-! ## Theorems: cell-reference round-trip (C9) -/

/-- Char.ofNat inverts toNat on the ASCII range used by the renderers. -/
theorem toNat_ofNat_small : ∀ k, k < 128 → (Char.ofNat k).toNat = k := by
  decide

/-- The accumulator of getColumnRefAux is a suffix of its output. -/
theorem getColumnRefAux_append (fuel : Nat) : ∀ (i : Nat) (acc : List Char),
    getColumnRefAux fuel i acc = getColumnRefAux fuel i [] ++ acc := by
  induction fuel with
  | zero => intro i acc; simp [getColumnRefAux]
  | succ g ih =>
    intro i acc
    rw [getColumnRefAux, getColumnRefAux]
    by_cases h : i < 26
    · simp [h]
    · simp only [h, if_false]
      rw [ih (i / 26 - 1) (Char.ofNat (i % 26 + 65) :: acc),
        ih (i / 26 - 1) [Char.ofNat (i % 26 + 65)], List.append_assoc]
      rfl

/-- The base-26 fold of parseCellReference inverts the bijective base-26
rendering of getColumnRef: folding the letters of column index `i` yields
`i + 1`. -/
theorem colVal_getColumnRefAux (fuel : Nat) : ∀ i : Nat, i < fuel →
    colVal (getColumnRefAux fuel i []) = i + 1 := by
  induction fuel with
  | zero => intro i h; omega
  | succ g ih =>
    intro i h
    rw [getColumnRefAux]
    by_cases h26 : i < 26
    · simp only [h26, if_true]
      have hmod : i % 26 = i := Nat.mod_eq_of_lt h26
      rw [colVal, List.foldl_cons, List.foldl_nil, toNat_ofNat_small (i % 26 + 65) (by omega)]
      omega
    · simp only [h26, if_false]
      have hlt : i / 26 - 1 < g := by
        have : i / 26 < i := Nat.div_lt_self (by omega) (by omega)
        omega
      rw [getColumnRefAux_append g (i / 26 - 1) [Char.ofNat (i % 26 + 65)]]
      rw [colVal, List.foldl_append]
      have hfold := ih (i / 26 - 1) hlt
      rw [colVal] at hfold
      rw [hfold, List.foldl_cons, List.foldl_nil,
        toNat_ofNat_small (i % 26 + 65) (by omega)]
      have hge : 26 ≤ i := by omega
      have h1 : i / 26 - 1 + 1 = i / 26 := by
        have : 1 ≤ i / 26 := (Nat.one_le_div_iff (by omega)).mpr hge
        omega
      rw [h1]
      have := Nat.div_add_mod i 26
      omega

/-- Every character getColumnRef emits lies in the class A-Z. -/
theorem getColumnRefAux_upper (fuel : Nat) : ∀ (i : Nat) (acc : List Char),
    (∀ c ∈ acc, isUpperAZ c = true) →
    ∀ c ∈ getColumnRefAux fuel i acc, isUpperAZ c = true := by
  induction fuel with
  | zero => intro i acc hacc; simpa [getColumnRefAux] using hacc
  | succ g ih =>
    intro i acc hacc
    have hc : isUpperAZ (Char.ofNat (i % 26 + 65)) = true := by
      have hm : i % 26 < 26 := Nat.mod_lt i (by omega)
      rw [isUpperAZ, toNat_ofNat_small (i % 26 + 65) (by omega)]
      simp
      omega
    rw [getColumnRefAux]
    by_cases h : i < 26
    · simp only [h, if_true]
      intro x hx
      rcases List.mem_cons.mp hx with h1 | h1
      · subst h1; exact hc
      · exact hacc x h1
    · simp only [h, if_false]
      apply ih
      intro x hx
      rcases List.mem_cons.mp hx with h1 | h1
      · subst h1; exact hc
      · exact hacc x h1

/-- The accumulator of natDecCharsAux is a suffix of its output. -/
theorem natDecCharsAux_append (fuel : Nat) : ∀ (n : Nat) (acc : List Char),
    natDecCharsAux fuel n acc = natDecCharsAux fuel n [] ++ acc := by
  induction fuel with
  | zero => intro n acc; simp [natDecCharsAux]
  | succ g ih =>
    intro n acc
    rw [natDecCharsAux, natDecCharsAux]
    by_cases h : n < 10
    · simp [h]
    · simp only [h, if_false]
      rw [ih (n / 10) (Char.ofNat (n % 10 + 48) :: acc),
        ih (n / 10) [Char.ofNat (n % 10 + 48)], List.append_assoc]
      rfl

/-- The base-10 fold of parseCellReference (JS parseInt) inverts the decimal
rendering. -/
theorem digitsVal_natDecCharsAux (fuel : Nat) : ∀ n : Nat, n < fuel →
    digitsVal (natDecCharsAux fuel n []) = n := by
  induction fuel with
  | zero => intro n h; omega
  | succ g ih =>
    intro n h
    rw [natDecCharsAux]
    by_cases h10 : n < 10
    · simp only [h10, if_true]
      rw [digitsVal, List.foldl_cons, List.foldl_nil,
        toNat_ofNat_small (n % 10 + 48) (by omega)]
      have : n % 10 = n := Nat.mod_eq_of_lt h10
      omega
    · simp only [h10, if_false]
      have hlt : n / 10 < g := by
        have : n / 10 < n := Nat.div_lt_self (by omega) (by omega)
        omega
      rw [natDecCharsAux_append g (n / 10) [Char.ofNat (n % 10 + 48)]]
      rw [digitsVal, List.foldl_append]
      have hfold := ih (n / 10) hlt
      rw [digitsVal] at hfold
      rw [hfold, List.foldl_cons, List.foldl_nil,
        toNat_ofNat_small (n % 10 + 48) (by omega)]
      have := Nat.div_add_mod n 10
      omega

/-- Every character the decimal rendering emits lies in the class 0-9. -/
theorem natDecCharsAux_digit (fuel : Nat) : ∀ (n : Nat) (acc : List Char),
    (∀ c ∈ acc, isDigit09 c = true) →
    ∀ c ∈ natDecCharsAux fuel n acc, isDigit09 c = true := by
  induction fuel with
  | zero => intro n acc hacc; simpa [natDecCharsAux] using hacc
  | succ g ih =>
    intro n acc hacc
    have hc : isDigit09 (Char.ofNat (n % 10 + 48)) = true := by
      have hm : n % 10 < 10 := Nat.mod_lt n (by omega)
      rw [isDigit09, toNat_ofNat_small (n % 10 + 48) (by omega)]
      simp
      omega
    rw [natDecCharsAux]
    by_cases h : n < 10
    · simp only [h, if_true]
      intro x hx
      rcases List.mem_cons.mp hx with h1 | h1
      · subst h1; exact hc
      · exact hacc x h1
    · simp only [h, if_false]
      apply ih
      intro x hx
      rcases List.mem_cons.mp hx with h1 | h1
      · subst h1; exact hc
      · exact hacc x h1

/-- A decimal digit is not an uppercase letter (48-57 versus 65-90). -/
theorem digit_not_upper (c : Char) (h : isDigit09 c = true) : isUpperAZ c = false := by
  rw [isDigit09] at h
  rw [isUpperAZ]
  simp at h
  simp
  omega

theorem takeWhile_all_append (p : Char → Bool) (l1 : List Char) (d : Char)
    (ds : List Char) (h1 : ∀ x ∈ l1, p x = true) (hd : p d = false) :
    (l1 ++ d :: ds).takeWhile p = l1 := by
  induction l1 with
  | nil => simp [List.takeWhile, hd]
  | cons x t ih =>
    rw [List.cons_append, List.takeWhile_cons, h1 x (List.mem_cons_self x t)]
    simp only [if_true]
    rw [ih (fun y hy => h1 y (List.mem_cons_of_mem x hy))]

theorem dropWhile_all_append (p : Char → Bool) (l1 : List Char) (d : Char)
    (ds : List Char) (h1 : ∀ x ∈ l1, p x = true) (hd : p d = false) :
    (l1 ++ d :: ds).dropWhile p = d :: ds := by
  induction l1 with
  | nil => simp [List.dropWhile, hd]
  | cons x t ih =>
    rw [List.cons_append, List.dropWhile_cons, h1 x (List.mem_cons_self x t)]
    simp only [if_true]
    exact ih (fun y hy => h1 y (List.mem_cons_of_mem x hy))

theorem takeWhile_all (p : Char → Bool) (l : List Char) (h : ∀ x ∈ l, p x = true) :
    l.takeWhile p = l := by
  induction l with
  | nil => simp
  | cons x t ih =>
    rw [List.takeWhile_cons, h x (List.mem_cons_self x t)]
    simp only [if_true]
    rw [ih (fun y hy => h y (List.mem_cons_of_mem x hy))]

/-- On a well-formed reference — a non-empty run of uppercase letters followed
by a non-empty run of digits — the unanchored regex match returns exactly
those two groups. -/
theorem findRefMatch_exact (L D : List Char) (hL : L ≠ [])
    (hLu : ∀ c ∈ L, isUpperAZ c = true) (hD : D ≠ [])
    (hDd : ∀ c ∈ D, isDigit09 c = true) :
    findRefMatch (L ++ D) = some (L, D) := by
  cases L with
  | nil => exact absurd rfl hL
  | cons c rest =>
    cases D with
    | nil => exact absurd rfl hD
    | cons d ds =>
      rw [List.cons_append, findRefMatch]
      rw [if_pos (hLu c (List.mem_cons_self c rest))]
      have hrest : ∀ x ∈ rest, isUpperAZ x = true :=
        fun x hx => hLu x (List.mem_cons_of_mem c hx)
      have hdnu : isUpperAZ d = false :=
        digit_not_upper d (hDd d (List.mem_cons_self d ds))
      rw [takeWhile_all_append isUpperAZ rest d ds hrest hdnu,
        dropWhile_all_append isUpperAZ rest d ds hrest hdnu]
      dsimp only
      rw [takeWhile_all isDigit09 (d :: ds) hDd]
      simp

/-- C9: cell addressing round-trips between the compactor and the reference
parser. For every 0-based row index r and column index c, parsing the
reference the compactor forms — getColumnRef for the column letters (also
multi-letter: AA, AB, ...) concatenated with the 1-based decimal row number —
yields exactly row r and column c back. -/
theorem C9_roundtrip (r c : Nat) :
    parseCellReference (getColumnRef c ++ natDecStr (r + 1)) =
      some { row := (r : Int), col := (c : Int) } := by
  have hL := colVal_getColumnRefAux (c + 1) c (by omega)
  have hD := digitsVal_natDecCharsAux (r + 2) (r + 1) (by omega)
  have hLne : getColumnRefAux (c + 1) c [] ≠ [] := by
    intro he
    rw [he, colVal, List.foldl_nil] at hL
    omega
  have hDne : natDecCharsAux (r + 2) (r + 1) [] ≠ [] := by
    intro he
    rw [he, digitsVal, List.foldl_nil] at hD
    omega
  have hLu := getColumnRefAux_upper (c + 1) c [] (by intro x hx; cases hx)
  have hDd := natDecCharsAux_digit (r + 2) (r + 1) [] (by intro x hx; cases hx)
  have hdata : (getColumnRef c ++ natDecStr (r + 1)).data =
      getColumnRefAux (c + 1) c [] ++ natDecCharsAux (r + 2) (r + 1) [] := rfl
  rw [parseCellReference, hdata, findRefMatch_exact _ _ hLne hLu hDne hDd]
  dsimp only
  rw [hL, hD]
  simp [CellPos.mk.injEq]

/-! ## Theorems: column selection preserves the original letter (C7) -/

/-- With the single original-column reference in scope, the row formatter
renders exactly the spec-side single-column form: tag `c(i+1)` per non-empty
single-cell row. -/
theorem formatRowsFrom_single (c : String) : ∀ (rows : List (List Cell)) (i : Nat),
    (∀ row ∈ rows, row.length = 1) →
    formatRowsFrom [c] i rows = singleColumnRender c i rows := by
  intro rows
  induction rows with
  | nil => intro i _; rfl
  | cons row rest ih =>
    intro i h
    have hlen : row.length = 1 := h row (List.mem_cons_self row rest)
    have htail : formatRowsFrom [c] (i + 1) rest = singleColumnRender c (i + 1) rest :=
      ih (i + 1) (fun row2 hr => h row2 (List.mem_cons_of_mem row hr))
    cases row with
    | nil => simp at hlen
    | cons v t =>
      cases t with
      | cons w u => simp at hlen
      | nil =>
        rw [formatRowsFrom, singleColumnRender, htail]
        congr 1
        by_cases hv : isEmptyCell v = true
        · simp [rowPiece, lastNonEmptyIdx, hv]
        · simp [rowPiece, lastNonEmptyIdx, hv, cellTags, List.getD, String.append_assoc]

/-- C7: for every single-column data slice (each row exactly one cell)
rendered with a non-empty original column reference, formatSpreadsheetData
emits every cell tag with the original column letter and the 1-based row
number — the rendering equals the spec-side singleColumnRender, in which the
letter A never appears unless it IS the original letter. -/
theorem C7_column_letter (c : String) (data : List (List Cell)) (k : Nat)
    (hc : c ≠ "") (hrows : ∀ row ∈ data, row.length = 1) :
    formatSpreadsheetData data false k (some c) = singleColumnRender c 0 data := by
  rw [formatSpreadsheetData]
  cases data with
  | nil => rfl
  | cons row0 rest =>
    have h0 : row0.length = 1 := hrows row0 (List.mem_cons_self row0 rest)
    have hguard : ((c != "") && ((row0 :: rest).headD []).length == 1) = true := by
      simp [bne_iff_ne, hc, h0]
    rw [hguard]
    simp only [if_true]
    exact formatRowsFrom_single c (row0 :: rest) 0 hrows

/-- C7 witness: selecting column F over a four-row single-column slice
renders F1, F2, F4 (the empty third row is skipped), never A1, A2. -/
theorem C7_witness :
    ("F" : String) ≠ "" ∧
    (∀ row ∈ ([[Cell.num 10], [Cell.str "x"], [Cell.empty], [Cell.num 3]] :
        List (List Cell)), row.length = 1) ∧
    formatSpreadsheetData [[Cell.num 10], [Cell.str "x"], [Cell.empty], [Cell.num 3]]
        false 0 (some "F") =
      singleColumnRender "F" 0 [[Cell.num 10], [Cell.str "x"], [Cell.empty], [Cell.num 3]] ∧
    singleColumnRender "F" 0 [[Cell.num 10], [Cell.str "x"], [Cell.empty], [Cell.num 3]] =
      "<F1>10</F1>\n<F2>x</F2>\n<F4>3</F4>\n" :=
  ⟨by decide, by decide,
    C7_column_letter "F" [[Cell.num 10], [Cell.str "x"], [Cell.empty], [Cell.num 3]] 0
      (by decide) (by decide),
    by decide⟩

/-! ## Theorems: oversized-grid sampling (C4) -/

/-- The representative sample is always bounded: at most a header row plus
ten data rows (first two, at most six middle, last two). -/
theorem sampleSpreadsheet_length_le (d : List (List Cell)) :
    (sampleSpreadsheet d).length ≤ 11 := by
  have hmid : ∀ (g : Nat → Option (List Cell)) (n : Nat),
      ((List.range n).filterMap g).length ≤ n := by
    intro g n
    calc ((List.range n).filterMap g).length ≤ (List.range n).length :=
          List.length_filterMap_le g (List.range n)
      _ = n := List.length_range n
  rw [sampleSpreadsheet]
  split
  · simp
  · dsimp only
    by_cases hh : inferHeaders d = true <;>
      simp only [hh, if_true, if_false, Bool.false_eq_true, MAX_SAMPLE_ROWS,
        MAX_SAMPLE_COLS] <;>
      split <;>
      rename_i h3 <;>
      simp only [List.length_append, List.length_map, List.length_range',
        List.length_cons, List.length_nil]
    · omega
    · by_cases hm : d.length - 1 > 5 <;> simp only [hm, if_true, if_false] <;>
        [skip; (simp only [List.length_nil]; omega)]
      refine le_trans (Nat.add_le_add (Nat.add_le_add (Nat.le_refl _) (hmid _ _))
        (Nat.le_refl _)) ?_
      omega
    · omega
    · by_cases hm : d.length > 5 <;> simp only [hm, if_true, if_false] <;>
        [skip; (simp only [List.length_nil]; omega)]
      refine le_trans (Nat.add_le_add (Nat.add_le_add (Nat.le_refl _) (hmid _ _))
        (Nat.le_refl _)) ?_
      omega

/-- C4 (amended): for every grid whose cleaned form exceeds the 500-cell
threshold, the compactor switches to the representative sample (header row
when detected, first two data rows, evenly spaced middle rows, last two
rows, at most ten columns — at most eleven rows in total), and the rendered
output is ONLY the "sample:" or "sample(no-headers):" marker followed by the
CSV of that sample: no count of omitted rows is appended. -/
theorem C4_oversized_sample (data : List (List Cell))
    (h : isSpreadsheetTooLarge (cleanSpreadsheetData data) = true) :
    createSpreadsheetContext data =
      (if inferHeaders (cleanSpreadsheetData data) then "sample:"
       else "sample(no-headers):")
        ++ csvGrid (sampleSpreadsheet (cleanSpreadsheetData data)) ∧
    (sampleSpreadsheet (cleanSpreadsheetData data)).length ≤ 11 := by
  have hne : data.isEmpty = false := by
    cases hd : data with
    | nil =>
      rw [hd] at h
      simp [cleanSpreadsheetData, isSpreadsheetTooLarge, countNonEmpty,
        MAX_CELLS_FULL_CONTEXT] at h
    | cons r t => rfl
  constructor
  · rw [createSpreadsheetContext]
    simp only [hne, Bool.false_eq_true, if_false, h, if_true]
  · exact sampleSpreadsheet_length_le (cleanSpreadsheetData data)

set_option maxRecDepth 10000 in
/-- C4 (counterexample): the 51-by-10 grid of sevens (510 non-empty cells,
over the threshold) compacts to a 10-row sample, but the rendered output is
only the no-headers sample marker plus the sample CSV: the omitted-row count
the claim requires — 51 - 10 = 41 — appears nowhere in the output. -/
theorem C4_counterexample :
    isSpreadsheetTooLarge (cleanSpreadsheetData bigGrid) = true ∧
    (cleanSpreadsheetData bigGrid).length = 51 ∧
    (sampleSpreadsheet (cleanSpreadsheetData bigGrid)).length = 10 ∧
    createSpreadsheetContext bigGrid =
      "sample(no-headers):7,7,7,7,7,7,7,7,7,7\n7,7,7,7,7,7,7,7,7,7\n7,7,7,7,7,7,7,7,7,7\n7,7,7,7,7,7,7,7,7,7\n7,7,7,7,7,7,7,7,7,7\n7,7,7,7,7,7,7,7,7,7\n7,7,7,7,7,7,7,7,7,7\n7,7,7,7,7,7,7,7,7,7\n7,7,7,7,7,7,7,7,7,7\n7,7,7,7,7,7,7,7,7,7" ∧
    strContainsSub (createSpreadsheetContext bigGrid) (natDecStr (51 - 10)) = false := by
  decide

set_option maxRecDepth 10000 in
/-- C4 witness: the amended theorem applied to the concrete oversized grid. -/
theorem C4_witness :
    isSpreadsheetTooLarge (cleanSpreadsheetData bigGrid) = true ∧
    (createSpreadsheetContext bigGrid =
      (if inferHeaders (cleanSpreadsheetData bigGrid) then "sample:"
       else "sample(no-headers):")
        ++ csvGrid (sampleSpreadsheet (cleanSpreadsheetData bigGrid)) ∧
    (sampleSpreadsheet (cleanSpreadsheetData bigGrid)).length ≤ 11) :=
  ⟨by decide, C4_oversized_sample bigGrid (by decide)⟩

/-! ## Theorems: cleanSpreadsheetData idempotence (C10) -/

theorem le_foldl_max (l : List Nat) (a : Nat) : a ≤ l.foldl Nat.max a := by
  induction l generalizing a with
  | nil => simp
  | cons x t ih => exact le_trans (Nat.le_max_left a x) (ih (Nat.max a x))

theorem mem_le_foldl_max (l : List Nat) (a x : Nat) (hx : x ∈ l) :
    x ≤ l.foldl Nat.max a := by
  induction l generalizing a with
  | nil => cases hx
  | cons y t ih =>
    rw [List.foldl_cons]
    rcases List.mem_cons.mp hx with h | h
    · subst h
      exact le_trans (Nat.le_max_right a x) (le_foldl_max t (Nat.max a x))
    · exact ih (Nat.max a y) h

theorem foldl_max_all_eq (l : List Nat) (n a : Nat) (hall : ∀ x ∈ l, x = n)
    (hne : l ≠ []) : l.foldl Nat.max a = Nat.max a n := by
  induction l generalizing a with
  | nil => exact absurd rfl hne
  | cons x t ih =>
    have hx : x = n := hall x (List.mem_cons_self x t)
    subst hx
    cases t with
    | nil => simp
    | cons y u =>
      rw [List.foldl_cons, ih (Nat.max a x) (fun z hz => hall z (List.mem_cons_of_mem x hz))
        (by simp)]
      simp [Nat.max_assoc]

/-- Reading every index of a row back in order reproduces the row. -/
theorem getD_map_range (row : List Cell) (dflt : Cell) :
    (List.range row.length).map (fun c => row.getD c dflt) = row := by
  induction row with
  | nil => simp
  | cons x t ih =>
    rw [List.length_cons, List.range_succ_eq_map, List.map_cons, List.map_map]
    rw [show ((fun c => (x :: t).getD c dflt) ∘ Nat.succ) = (fun c => t.getD c dflt) from
      funext (fun c => by simp)]
    rw [ih]
    simp

/-- A non-empty grid with no empty row, constant row length n, and no empty
column below n is a fixed point of cleanSpreadsheetData. -/
theorem clean_fixed (d : List (List Cell)) (n : Nat) (hne : d ≠ [])
    (hrows : ∀ row ∈ d, isRowEmpty row = false)
    (hlen : ∀ row ∈ d, row.length = n)
    (hcols : ∀ k, k < n → isColumnEmpty d k = false) :
    cleanSpreadsheetData d = d := by
  rw [cleanSpreadsheetData]
  have h0 : d.isEmpty = false := by simpa using hne
  have hfilter : d.filter (fun row => !isRowEmpty row) = d :=
    List.filter_eq_self.mpr (fun row hr => by simp [hrows row hr])
  simp only [h0, Bool.false_eq_true, if_false, hfilter]
  have hmax : (d.map List.length).foldl Nat.max 0 = n := by
    rw [foldl_max_all_eq (d.map List.length) n 0 ?_ ?_]
    · exact Nat.zero_max n
    · intro x hx
      rcases List.mem_map.mp hx with ⟨row, hrow, hrx⟩
      rw [← hrx]
      exact hlen row hrow
    · simpa using hne
  have hcolsall : (List.range n).filter (fun col => !isColumnEmpty d col) = List.range n :=
    List.filter_eq_self.mpr (fun k hk => by
      simp [hcols k (List.mem_range.mp hk)])
  rw [hmax, hcolsall]
  have hroweq : ∀ row ∈ d,
      (List.range n).map (fun col => row.getD col (Cell.str "")) = row := by
    intro row hrow
    rw [← hlen row hrow]
    exact getD_map_range row (Cell.str "")
  calc d.map (fun row => (List.range n).map (fun col => row.getD col (Cell.str "")))
      = d.map id := List.map_congr_left (fun row hrow => hroweq row hrow)
    _ = d := List.map_id d

/-- The projection cleanSpreadsheetData builds for a non-degenerate grid —
the surviving rows restricted to the surviving columns — satisfies the
fixed-point conditions: no empty row survives projection (the witness cell's
column is kept), all projected rows share the column count, and every kept
column keeps its witness cell. -/
theorem clean_map_proj (r : List (List Cell)) (hne : r ≠ [])
    (hrows : ∀ row ∈ r, isRowEmpty row = false) :
    cleanSpreadsheetData (r.map (fun row =>
      ((List.range ((r.map List.length).foldl Nat.max 0)).filter
        (fun col => !isColumnEmpty r col)).map (fun col => row.getD col (Cell.str "")))) =
    r.map (fun row =>
      ((List.range ((r.map List.length).foldl Nat.max 0)).filter
        (fun col => !isColumnEmpty r col)).map (fun col => row.getD col (Cell.str ""))) := by
  set cols := (List.range ((r.map List.length).foldl Nat.max 0)).filter
    (fun col => !isColumnEmpty r col) with hcols
  apply clean_fixed _ cols.length
  · simpa using hne
  · intro row1 hrow1
    rcases List.mem_map.mp hrow1 with ⟨row, hrowr, hproj⟩
    have hrowne : isRowEmpty row = false := hrows row hrowr
    rw [isRowEmpty] at hrowne
    rcases List.all_eq_false.mp hrowne with ⟨x, hxmem, hxne⟩
    rcases List.get?_of_mem hxmem with ⟨j, hj⟩
    have hjlt : j < row.length := by
      rcases List.get?_eq_some.mp hj with ⟨h, _⟩
      exact h
    have hjmax : j < (r.map List.length).foldl Nat.max 0 := by
      refine lt_of_lt_of_le hjlt ?_
      exact mem_le_foldl_max (r.map List.length) 0 row.length
        (List.mem_map.mpr ⟨row, hrowr, rfl⟩)
    have hcolne : isColumnEmpty r j = false := by
      rw [isColumnEmpty]
      apply List.all_eq_false.mpr
      refine ⟨row, hrowr, ?_⟩
      simp only [hj]
      simpa using hxne
    have hjcols : j ∈ cols := by
      rw [hcols]
      exact List.mem_filter.mpr ⟨List.mem_range.mpr hjmax, by simp [hcolne]⟩
    have hxval : row.getD j (Cell.str "") = x := by
      rw [List.getD_eq_get?, hj]
      rfl
    have hxrow1 : x ∈ row1 := by
      rw [← hproj]
      exact List.mem_map.mpr ⟨j, hjcols, hxval⟩
    rw [isRowEmpty]
    exact List.all_eq_false.mpr ⟨x, hxrow1, hxne⟩
  · intro row1 hrow1
    rcases List.mem_map.mp hrow1 with ⟨row, hrowr, hproj⟩
    rw [← hproj, List.length_map]
  · intro k hk
    obtain ⟨c, hc⟩ : ∃ c, cols.get? k = some c := by
      cases hcg : cols.get? k with
      | none =>
        rw [List.get?_eq_none] at hcg
        omega
      | some c => exact ⟨c, rfl⟩
    have hcmem : c ∈ cols := List.get?_mem hc
    have hcol : isColumnEmpty r c = false := by
      rw [hcols] at hcmem
      have := (List.mem_filter.mp hcmem).2
      simpa using this
    rw [isColumnEmpty] at hcol
    rcases List.all_eq_false.mp hcol with ⟨row, hrowr, hq⟩
    cases hgc : row.get? c with
    | none =>
      rw [hgc] at hq
      simp at hq
    | some x =>
      rw [hgc] at hq
      rw [isColumnEmpty]
      apply List.all_eq_false.mpr
      refine ⟨cols.map (fun col => row.getD col (Cell.str "")),
        List.mem_map.mpr ⟨row, hrowr, rfl⟩, ?_⟩
      have hget : (cols.map (fun col => row.getD col (Cell.str ""))).get? k =
          some (row.getD c (Cell.str "")) := by
        rw [List.get?_map, hc]
        rfl
      have hgd : row.getD c (Cell.str "") = x := by
        rw [List.getD_eq_get?, hgc]
        rfl
      simp only [hget, hgd]
      exact hq

/-- C10: cleanSpreadsheetData is idempotent — cleaning a cleaned grid
changes nothing. For degenerate inputs both passes collapse to the sentinel
grid containing one empty row; otherwise the first pass leaves no empty row
and no empty column, so the second pass keeps every row and every column. -/
theorem C10_clean_idempotent (data : List (List Cell)) :
    cleanSpreadsheetData (cleanSpreadsheetData data) = cleanSpreadsheetData data := by
  by_cases h0 : data.isEmpty
  · have e : cleanSpreadsheetData data = [[]] := by
      rw [cleanSpreadsheetData]
      simp [h0]
    rw [e]
    decide
  · rw [Bool.not_eq_true] at h0
    by_cases h1 : (data.filter (fun row => !isRowEmpty row)).isEmpty
    · have e : cleanSpreadsheetData data = [[]] := by
        rw [cleanSpreadsheetData]
        simp only [h0, Bool.false_eq_true, if_false, h1, if_true]
      rw [e]
      decide
    · rw [Bool.not_eq_true] at h1
      have e : cleanSpreadsheetData data = (data.filter (fun row => !isRowEmpty row)).map
          (fun row =>
            ((List.range (((data.filter (fun row => !isRowEmpty row)).map List.length).foldl
              Nat.max 0)).filter
              (fun col => !isColumnEmpty (data.filter (fun row => !isRowEmpty row)) col)).map
              (fun col => row.getD col (Cell.str ""))) := by
        rw [cleanSpreadsheetData]
        simp only [h0, Bool.false_eq_true, if_false, h1]
      rw [e]
      apply clean_map_proj
      · simpa using h1
      · intro row hrow
        have := (List.mem_filter.mp hrow).2
        simpa using this

end Probly
